import Mathlib

/-!
Shallow embedding of the ServiceTitan MCP servers' OAuth2 token-acquisition
logic and endpoint-wrapper error handling, translated from
`src/servicetitan_accounting.py`, `src/servicetitan_crm.py` and
`src/servicetitan_service_agreements.py`.

Python JSON values are modelled by `JVal`; Python truthiness by `JVal.truthy`;
machine time (`time.time()`) by explicit `Int` parameters (`now` at the cache
check, `storeTime` at the expiry store — the source calls `time.time()` twice).
Raised exceptions are modelled by `PyError`; a call returns
`Except PyError …` together with the final cache state and the number of
network requests it performed.
-/

namespace ServiceTitan

/-- A Python/JSON value, as produced by `response.json()`. -/
inductive JVal where
  | jNull : JVal
  | jBool : Bool → JVal
  | jNum : Int → JVal
  | jStr : String → JVal
  | jObj : List (String × JVal) → JVal

/-- Python truthiness of a JSON value (`if x:`). -/
def JVal.truthy : JVal → Bool
  | .jNull => false
  | .jBool b => b
  | .jNum n => n != 0
  | .jStr s => s != ""
  | .jObj fs => !fs.isEmpty

/-- Python numeric coercion used in `time.time() + expires_in - 60`:
integers and booleans are numbers, everything else raises `TypeError`. -/
def JVal.asNum : JVal → Option Int
  | .jNum n => some n
  | .jBool b => some (if b then 1 else 0)
  | _ => none

/-- Dictionary lookup `d[k]` returning `none` when the key is absent. -/
def dictGet (d : List (String × JVal)) (k : String) : Option JVal :=
  (d.find? (fun p => p.1 == k)).map (fun p => p.2)

/-- Whether a list of characters occurs contiguously inside another. -/
def containsSub : List Char → List Char → Bool
  | [], needle => needle.isEmpty
  | c :: t, needle => needle.isPrefixOf (c :: t) || containsSub t needle

/-- Whether `needle` occurs as a substring of `hay`. -/
def strContains (hay needle : String) : Bool :=
  containsSub hay.toList needle.toList

/-- The four credential environment variables (`os.getenv` yields `None`
or a string). -/
structure Config where
  clientId : Option String
  clientSecret : Option String
  appKey : Option String
  tenantId : Option String

/-- Python `not CLIENT_ID` on an `os.getenv` result: true when the variable
is unset or the empty string. -/
def envMissing : Option String → Bool
  | none => true
  | some s => s == ""

/-- The `missing_vars` list built by `get_access_token` in
`servicetitan_accounting.py` (lines 50-54). -/
def missingVars (cfg : Config) : List String :=
  (if envMissing cfg.clientId then ["SERVICE_TITAN_CLIENT_ID"] else []) ++
  (if envMissing cfg.clientSecret then ["SERVICE_TITAN_CLIENT_SECRET"] else []) ++
  (if envMissing cfg.appKey then ["SERVICE_TITAN_APP_KEY"] else []) ++
  (if envMissing cfg.tenantId then ["SERVICE_TITAN_TENANT_ID"] else [])

/-- The message of the `ValueError` raised by the accounting module when
configuration is missing (line 55). -/
def envErrorMsg (cfg : Config) : String :=
  "ERROR_ENV: Missing ServiceTitan environment variables: " ++
    String.intercalate ", " (missingVars cfg)

/-- A raised Python exception. -/
inductive PyError where
  | valueError : String → PyError
  | exn : String → PyError
  | keyError : String → PyError
  | typeError : String → PyError
  | httpStatusError : Nat → String → PyError

/-- The exception's message, for `AuthenticationError`-style content checks. -/
def PyError.msg : PyError → String
  | .valueError m => m
  | .exn m => m
  | .keyError k => k
  | .typeError m => m
  | .httpStatusError s b => "HTTP status error: " ++ toString s ++ " - " ++ b

/-- The module-level cache slot of `servicetitan_accounting.py`:
`_access_token = None`, `_token_expires_at = 0`. -/
structure TokenState where
  accessToken : Option JVal
  tokenExpiresAt : Int

/-- The initial cache state on import. -/
def initState : TokenState := { accessToken := none, tokenExpiresAt := 0 }

/-- A response from the authentication endpoint; `bodyJson` is the parsed
JSON object. -/
structure AuthResponse where
  statusCode : Nat
  bodyText : String
  bodyJson : List (String × JVal)

/-- A response from a resource endpoint; `bodyJson` is the parsed JSON. -/
structure ApiResponse where
  statusCode : Nat
  bodyText : String
  bodyJson : JVal

/-- The cache-hit test `_access_token and time.time() < _token_expires_at`
in `servicetitan_accounting.py` line 58. -/
def cacheValid (st : TokenState) (now : Int) : Bool :=
  (match st.accessToken with
   | none => false
   | some v => v.truthy) && decide (now < st.tokenExpiresAt)

/-- The outcome of one `get_access_token` call in the accounting module:
the returned value or raised exception, the final cache state, and the
number of POSTs issued to the authentication endpoint. -/
structure TokenCallResult where
  result : Except PyError JVal
  state : TokenState
  authRequests : Nat

namespace Accounting

/-- `get_access_token` of `servicetitan_accounting.py` (lines 44-76):
config check, cache-hit check, single POST, status check (`!= 200`),
then `_access_token = token_data["access_token"]` followed by
`_token_expires_at = time.time() + token_data["expires_in"] - 60`.
`resp` is the response the auth endpoint would return if called. -/
def get_access_token (cfg : Config) (st : TokenState) (now storeTime : Int)
    (resp : AuthResponse) : TokenCallResult :=
  if missingVars cfg ≠ [] then
    { result := .error (.valueError (envErrorMsg cfg)), state := st, authRequests := 0 }
  else if cacheValid st now then
    { result := .ok (st.accessToken.getD .jNull), state := st, authRequests := 0 }
  else if resp.statusCode ≠ 200 then
    { result := .error (.exn ("Failed to get access token: " ++ toString resp.statusCode)),
      state := st, authRequests := 1 }
  else
    match dictGet resp.bodyJson "access_token" with
    | none =>
      { result := .error (.keyError "access_token"), state := st, authRequests := 1 }
    | some tok =>
      match dictGet resp.bodyJson "expires_in" with
      | none =>
        { result := .error (.keyError "expires_in"),
          state := { accessToken := some tok, tokenExpiresAt := st.tokenExpiresAt },
          authRequests := 1 }
      | some e =>
        match e.asNum with
        | none =>
          { result := .error (.typeError "unsupported operand type for +"),
            state := { accessToken := some tok, tokenExpiresAt := st.tokenExpiresAt },
            authRequests := 1 }
        | some n =>
          { result := .ok tok,
            state := { accessToken := some tok, tokenExpiresAt := storeTime + n - 60 },
            authRequests := 1 }

/-- The outcome of one `make_api_request` call: result, final cache state,
auth POST count and resource-endpoint request count. -/
structure ApiCallResult where
  result : Except PyError JVal
  state : TokenState
  authRequests : Nat
  apiRequests : Nat

/-- `make_api_request` of `servicetitan_accounting.py` (lines 78-102):
obtains a token via `get_access_token` (an exception propagates uncaught),
issues the request, and raises on `status_code >= 400`. -/
def make_api_request (cfg : Config) (st : TokenState) (now storeTime : Int)
    (authResp : AuthResponse) (apiResp : ApiResponse) : ApiCallResult :=
  let t := get_access_token cfg st now storeTime authResp
  match t.result with
  | .error e =>
    { result := .error e, state := t.state, authRequests := t.authRequests, apiRequests := 0 }
  | .ok _ =>
    if apiResp.statusCode ≥ 400 then
      { result := .error (.exn ("API request failed: " ++ toString apiResp.statusCode ++
          " - " ++ apiResp.bodyText)),
        state := t.state, authRequests := t.authRequests, apiRequests := 1 }
    else
      { result := .ok apiResp.bodyJson,
        state := t.state, authRequests := t.authRequests, apiRequests := 1 }

end Accounting

namespace CRM

/-- `get_access_token` of `servicetitan_crm.py` (lines 23-40): no cache,
generic `ERROR_ENV` message, `response.raise_for_status()` (raises for
status >= 400 carrying the response), then `response.json()["access_token"]`.
Returns the result and the number of POSTs issued. -/
def get_access_token (cfg : Config) (resp : AuthResponse) :
    Except PyError JVal × Nat :=
  if envMissing cfg.clientId || envMissing cfg.clientSecret ||
      envMissing cfg.appKey || envMissing cfg.tenantId then
    (.error (.exn "ERROR_ENV: One or more ServiceTitan environment variables are not set."), 0)
  else if resp.statusCode ≥ 400 then
    (.error (.httpStatusError resp.statusCode resp.bodyText), 1)
  else
    match dictGet resp.bodyJson "access_token" with
    | none => (.error (.keyError "access_token"), 1)
    | some tok => (.ok tok, 1)

/-- The response handling of `create_booking_provider_tag` in
`servicetitan_crm.py` (lines 104-107): a 404 returns
`{"error": "Not found", "status_code": 404}`, any other error status
raises via `raise_for_status`, otherwise the parsed body is returned. -/
def create_booking_provider_tag_handle (resp : ApiResponse) : Except PyError JVal :=
  if resp.statusCode == 404 then
    .ok (.jObj [("error", .jStr "Not found"), ("status_code", .jNum 404)])
  else if resp.statusCode ≥ 400 then
    .error (.httpStatusError resp.statusCode resp.bodyText)
  else
    .ok resp.bodyJson

/-- `create_booking_provider_tag` of `servicetitan_crm.py` (lines 86-107):
fetches a token (an exception propagates uncaught, and then no resource
request is made), then POSTs and handles the response. The second component
counts resource-endpoint requests. -/
def create_booking_provider_tag (cfg : Config) (authResp : AuthResponse)
    (apiResp : ApiResponse) : Except PyError JVal × Nat :=
  match (get_access_token cfg authResp).1 with
  | .error e => (.error e, 0)
  | .ok _ => (create_booking_provider_tag_handle apiResp, 1)

end CRM

namespace SvcAgreements

/-- The response handling of `export_service_agreements` in
`servicetitan_service_agreements.py` (lines 46-48): the parsed body is
returned unconditionally — no status check, no 404 special case. -/
def export_service_agreements_handle (resp : ApiResponse) : Except PyError JVal :=
  .ok resp.bodyJson

end SvcAgreements

/-- Whether a returned value is a dict of the shape `{"error": ...}`. -/
def isErrorDict : JVal → Bool
  | .jObj fs => (dictGet fs "error").isSome
  | _ => false

/-- One caller of `get_access_token` in the interleaving model of the
unguarded token cache: it has checked nothing yet, has observed a miss and
is about to fetch-and-write, or is done with a result and a flag recording
whether it performed the authentication round trip. -/
inductive CallerPhase where
  | start : CallerPhase
  | willFetch : CallerPhase
  | done : JVal → Bool → CallerPhase

/-- One atomic step of a caller against the shared cache slot. The cache
check (`servicetitan_accounting.py` line 58) and the fetch-plus-store
(lines 67-74) are separated by an `await`, so other callers interleave
between them; the store itself has no `await` inside and is one step.
`tok` and `exp` are the token and expiry this caller's fetch would store. -/
def stepCaller (now : Int) (tok : JVal) (exp : Int) (cache : TokenState) :
    CallerPhase → TokenState × CallerPhase
  | .start =>
    if cacheValid cache now then
      (cache, .done (cache.accessToken.getD .jNull) false)
    else
      (cache, .willFetch)
  | .willFetch => ({ accessToken := some tok, tokenExpiresAt := exp }, .done tok true)
  | .done r f => (cache, .done r f)

/-- The shared cache together with the two callers' phases. -/
structure Sys where
  cache : TokenState
  pa : CallerPhase
  pb : CallerPhase

/-- Run a schedule over two concurrent callers of `get_access_token`:
`false` steps caller A (token `ta`, expiry `ea`), `true` steps caller B. -/
def runSched (now : Int) (ta tb : JVal) (ea eb : Int) :
    List Bool → Sys → Sys
  | [], s => s
  | false :: rest, s =>
    let r := stepCaller now ta ea s.cache s.pa
    runSched now ta tb ea eb rest { cache := r.1, pa := r.2, pb := s.pb }
  | true :: rest, s =>
    let r := stepCaller now tb eb s.cache s.pb
    runSched now ta tb ea eb rest { cache := r.1, pa := s.pa, pb := r.2 }

end ServiceTitan

namespace ServiceTitan

/-- Helper: when configuration is present and the cache check fails, every
branch of the accounting `get_access_token` performs exactly one POST. -/
theorem auth_requests_one_of_miss
    (cfg : Config) (st : TokenState) (now storeTime : Int) (resp : AuthResponse)
    (hcfg : missingVars cfg = []) (hmiss : cacheValid st now = false) :
    (Accounting.get_access_token cfg st now storeTime resp).authRequests = 1 := by
  unfold Accounting.get_access_token
  simp only [hcfg, hmiss, ne_eq, not_true_eq_false, if_false, Bool.false_eq_true]
  split
  · rfl
  · split
    · rfl
    · split
      · rfl
      · split <;> rfl

/-- Helper: the successful-fetch equation of the accounting
`get_access_token`. -/
theorem get_access_token_success_eq
    (cfg : Config) (st : TokenState) (now storeTime : Int) (resp : AuthResponse)
    (tok : JVal) (e : Int)
    (hcfg : missingVars cfg = []) (hmiss : cacheValid st now = false)
    (hstatus : resp.statusCode = 200)
    (htok : dictGet resp.bodyJson "access_token" = some tok)
    (hexp : dictGet resp.bodyJson "expires_in" = some (.jNum e)) :
    Accounting.get_access_token cfg st now storeTime resp =
      { result := .ok tok,
        state := { accessToken := some tok, tokenExpiresAt := storeTime + e - 60 },
        authRequests := 1 } := by
  unfold Accounting.get_access_token
  simp [hcfg, hmiss, hstatus, htok, hexp, JVal.asNum]

/-- Helper: the cache-hit equation of the accounting `get_access_token`. -/
theorem get_access_token_hit_eq
    (cfg : Config) (st : TokenState) (now storeTime : Int) (resp : AuthResponse)
    (hcfg : missingVars cfg = []) (hhit : cacheValid st now = true) :
    Accounting.get_access_token cfg st now storeTime resp =
      { result := .ok (st.accessToken.getD .jNull), state := st, authRequests := 0 } := by
  unfold Accounting.get_access_token
  simp [hcfg, hhit]

/-- C1: with configuration present, if the cached token is truthy and the
current time is strictly before `_token_expires_at`, the call returns the
cached token, performs no network request and leaves the cache unchanged;
when the current time equals `_token_expires_at` exactly, the token is
treated as expired and a POST is performed (exclusive boundary). -/
theorem C1_cache_hit_and_exclusive_boundary
    (cfg : Config) (st : TokenState) (now storeTime : Int) (resp : AuthResponse)
    (tok : JVal) (hcfg : missingVars cfg = []) (htok : st.accessToken = some tok)
    (htruthy : tok.truthy = true) :
    (now < st.tokenExpiresAt →
      Accounting.get_access_token cfg st now storeTime resp =
        { result := .ok tok, state := st, authRequests := 0 }) ∧
    (now = st.tokenExpiresAt →
      (Accounting.get_access_token cfg st now storeTime resp).authRequests = 1) := by
  constructor
  · intro hlt
    have hhit : cacheValid st now = true := by
      simp [cacheValid, htok, htruthy, hlt]
    rw [get_access_token_hit_eq cfg st now storeTime resp hcfg hhit, htok]
    rfl
  · intro heq
    have hmiss : cacheValid st now = false := by
      simp [cacheValid, htok, heq]
    exact auth_requests_one_of_miss cfg st now storeTime resp hcfg hmiss

/-- C1 witness. -/
theorem C1_witness :
    ((50:Int) < (100:Int) →
      Accounting.get_access_token
        { clientId := some "i", clientSecret := some "s",
          appKey := some "a", tenantId := some "t" }
        { accessToken := some (.jStr "tok"), tokenExpiresAt := 100 } 50 50
        { statusCode := 200, bodyText := "", bodyJson := [] } =
      { result := .ok (.jStr "tok"),
        state := { accessToken := some (.jStr "tok"), tokenExpiresAt := 100 },
        authRequests := 0 }) ∧
    ((50:Int) = (100:Int) →
      (Accounting.get_access_token
        { clientId := some "i", clientSecret := some "s",
          appKey := some "a", tenantId := some "t" }
        { accessToken := some (.jStr "tok"), tokenExpiresAt := 100 } 50 50
        { statusCode := 200, bodyText := "", bodyJson := [] }).authRequests = 1) :=
  C1_cache_hit_and_exclusive_boundary
    { clientId := some "i", clientSecret := some "s",
      appKey := some "a", tenantId := some "t" }
    { accessToken := some (.jStr "tok"), tokenExpiresAt := 100 } 50 50
    { statusCode := 200, bodyText := "", bodyJson := [] }
    (.jStr "tok") (by rfl) (by rfl) (by rfl)

/-- C2: on every successful fetch the stored expiry is the store-time call
of `time.time()` plus the response's `expires_in` minus a 60-second margin;
with `expires_in = 120` the stored expiry is `storeTime + 60`. -/
theorem C2_safety_margin_sixty_seconds
    (cfg : Config) (st : TokenState) (now storeTime : Int) (resp : AuthResponse)
    (tok : JVal) (e : Int)
    (hcfg : missingVars cfg = []) (hmiss : cacheValid st now = false)
    (hstatus : resp.statusCode = 200)
    (htok : dictGet resp.bodyJson "access_token" = some tok)
    (hexp : dictGet resp.bodyJson "expires_in" = some (.jNum e)) :
    (Accounting.get_access_token cfg st now storeTime resp).state.tokenExpiresAt
        = storeTime + e - 60 ∧
    (e = 120 →
      (Accounting.get_access_token cfg st now storeTime resp).state.tokenExpiresAt
        = storeTime + 60) := by
  rw [get_access_token_success_eq cfg st now storeTime resp tok e hcfg hmiss hstatus htok hexp]
  constructor
  · rfl
  · intro he
    simp [he]
    omega

/-- C2 witness. -/
theorem C2_safety_margin_witness :
    ((Accounting.get_access_token
        { clientId := some "i", clientSecret := some "s",
          appKey := some "a", tenantId := some "t" }
        initState 1000 1000
        { statusCode := 200, bodyText := "",
          bodyJson := [("access_token", .jStr "tok"), ("expires_in", .jNum 120)] }).state.tokenExpiresAt
      = 1000 + 120 - 60) ∧
    ((120:Int) = 120 →
      (Accounting.get_access_token
        { clientId := some "i", clientSecret := some "s",
          appKey := some "a", tenantId := some "t" }
        initState 1000 1000
        { statusCode := 200, bodyText := "",
          bodyJson := [("access_token", .jStr "tok"), ("expires_in", .jNum 120)] }).state.tokenExpiresAt
      = 1000 + 60) :=
  C2_safety_margin_sixty_seconds
    { clientId := some "i", clientSecret := some "s",
      appKey := some "a", tenantId := some "t" }
    initState 1000 1000
    { statusCode := 200, bodyText := "",
      bodyJson := [("access_token", .jStr "tok"), ("expires_in", .jNum 120)] }
    (.jStr "tok") 120 (by rfl) (by rfl) (by rfl) (by rfl) (by rfl)

end ServiceTitan

namespace ServiceTitan

/-- C3 counterexample: on a 500 auth response with body "server overloaded",
the raised error is exactly `Failed to get access token: 500` — it carries
the status code but not the response body, refuting the claim that the
error carries both. -/
theorem C3_counterexample :
    (Accounting.get_access_token
        { clientId := some "i", clientSecret := some "s",
          appKey := some "a", tenantId := some "t" }
        initState 0 0
        { statusCode := 500, bodyText := "server overloaded", bodyJson := [] }).result
      = .error (.exn "Failed to get access token: 500") ∧
    strContains "Failed to get access token: 500" "server overloaded" = false := by
  exact ⟨rfl, by decide⟩

/-- C3 amended: on a non-200 auth status the call fails with an error whose
message carries the status code only (the response body is not included),
and the cache slot is left unchanged, so a previously cached token is not
evicted. -/
theorem C3_auth_failure_status_only_cache_kept
    (cfg : Config) (st : TokenState) (now storeTime : Int) (resp : AuthResponse)
    (hcfg : missingVars cfg = []) (hmiss : cacheValid st now = false)
    (hstatus : resp.statusCode ≠ 200) :
    (Accounting.get_access_token cfg st now storeTime resp).result
        = .error (.exn ("Failed to get access token: " ++ toString resp.statusCode)) ∧
    (Accounting.get_access_token cfg st now storeTime resp).state = st := by
  unfold Accounting.get_access_token
  simp [hcfg, hmiss, hstatus]

/-- C3 witness. -/
theorem C3_auth_failure_witness :
    (Accounting.get_access_token
        { clientId := some "i", clientSecret := some "s",
          appKey := some "a", tenantId := some "t" }
        { accessToken := some (.jStr "old"), tokenExpiresAt := 0 } 5 5
        { statusCode := 401, bodyText := "denied", bodyJson := [] }).result
      = .error (.exn ("Failed to get access token: " ++ toString 401)) ∧
    (Accounting.get_access_token
        { clientId := some "i", clientSecret := some "s",
          appKey := some "a", tenantId := some "t" }
        { accessToken := some (.jStr "old"), tokenExpiresAt := 0 } 5 5
        { statusCode := 401, bodyText := "denied", bodyJson := [] }).state
      = { accessToken := some (.jStr "old"), tokenExpiresAt := 0 } :=
  C3_auth_failure_status_only_cache_kept
    { clientId := some "i", clientSecret := some "s",
      appKey := some "a", tenantId := some "t" }
    { accessToken := some (.jStr "old"), tokenExpiresAt := 0 } 5 5
    { statusCode := 401, bodyText := "denied", bodyJson := [] }
    (by rfl) (by rfl) (by decide)

/-- Helper: the accounting missing-variables list is nonempty exactly when
the CRM module's disjunctive missing-credentials test is true. -/
theorem missingVars_ne_nil_iff (cfg : Config) :
    missingVars cfg ≠ [] ↔
      (envMissing cfg.clientId || envMissing cfg.clientSecret ||
       envMissing cfg.appKey || envMissing cfg.tenantId) = true := by
  cases h1 : envMissing cfg.clientId <;> cases h2 : envMissing cfg.clientSecret <;>
    cases h3 : envMissing cfg.appKey <;> cases h4 : envMissing cfg.tenantId <;>
    simp [missingVars, h1, h2, h3, h4]

/-- C4 counterexample: in `servicetitan_crm.py`, with `SERVICE_TITAN_CLIENT_ID`
unset the call fails with the generic `ERROR_ENV` message that does not name
the missing variable, refuting the claim that the error names which values
are missing (no network request is made, as claimed). -/
theorem C4_counterexample :
    (CRM.get_access_token
        { clientId := none, clientSecret := some "s",
          appKey := some "a", tenantId := some "t" }
        { statusCode := 200, bodyText := "",
          bodyJson := [("access_token", .jStr "tok")] }).1
      = .error (.exn "ERROR_ENV: One or more ServiceTitan environment variables are not set.") ∧
    strContains "ERROR_ENV: One or more ServiceTitan environment variables are not set."
        "SERVICE_TITAN_CLIENT_ID" = false ∧
    (CRM.get_access_token
        { clientId := none, clientSecret := some "s",
          appKey := some "a", tenantId := some "t" }
        { statusCode := 200, bodyText := "",
          bodyJson := [("access_token", .jStr "tok")] }).2 = 0 := by
  exact ⟨rfl, by decide, rfl⟩

/-- C4 amended: with any required credential missing or empty, both modules
fail before any network request; the accounting module's `ValueError`
message names exactly the missing variables, while the CRM module raises a
generic `ERROR_ENV` message that does not name them. -/
theorem C4_missing_config_no_network
    (cfg : Config) (st : TokenState) (now storeTime : Int) (resp : AuthResponse)
    (h : missingVars cfg ≠ []) :
    (Accounting.get_access_token cfg st now storeTime resp =
      { result := .error (.valueError (envErrorMsg cfg)), state := st, authRequests := 0 }) ∧
    (CRM.get_access_token cfg resp =
      (.error (.exn "ERROR_ENV: One or more ServiceTitan environment variables are not set."), 0)) := by
  constructor
  · unfold Accounting.get_access_token
    simp [h]
  · have hb := (missingVars_ne_nil_iff cfg).mp h
    unfold CRM.get_access_token
    simp [hb]

/-- C4 witness. -/
theorem C4_missing_config_witness :
    (Accounting.get_access_token
        { clientId := some "i", clientSecret := none,
          appKey := some "a", tenantId := some "t" }
        initState 0 0 { statusCode := 200, bodyText := "", bodyJson := [] } =
      { result := .error (.valueError (envErrorMsg
          { clientId := some "i", clientSecret := none,
            appKey := some "a", tenantId := some "t" })),
        state := initState, authRequests := 0 }) ∧
    (CRM.get_access_token
        { clientId := some "i", clientSecret := none,
          appKey := some "a", tenantId := some "t" }
        { statusCode := 200, bodyText := "", bodyJson := [] } =
      (.error (.exn "ERROR_ENV: One or more ServiceTitan environment variables are not set."), 0)) :=
  C4_missing_config_no_network
    { clientId := some "i", clientSecret := none,
      appKey := some "a", tenantId := some "t" }
    initState 0 0 { statusCode := 200, bodyText := "", bodyJson := [] }
    (by decide)

/-- C5 counterexample: a 200 auth response whose `access_token` is the
number 12345 (not a string) does not fail: the value is stored in the cache
and returned, refuting the claim that a non-string `access_token` causes a
malformed-response error. -/
theorem C5_counterexample :
    Accounting.get_access_token
        { clientId := some "i", clientSecret := some "s",
          appKey := some "a", tenantId := some "t" }
        initState 0 0
        { statusCode := 200, bodyText := "",
          bodyJson := [("access_token", .jNum 12345), ("expires_in", .jNum 3600)] }
      = { result := .ok (.jNum 12345),
          state := { accessToken := some (.jNum 12345), tokenExpiresAt := 0 + 3600 - 60 },
          authRequests := 1 } := by
  rfl

/-- C5 amended: a 200 auth response lacking the `access_token` key fails
with a `KeyError` and stores nothing; but a present `access_token` of any
JSON type — string or not — is accepted without a type check: it is stored
in the cache and returned. -/
theorem C5_missing_key_fails_nonstring_accepted
    (cfg : Config) (st : TokenState) (now storeTime : Int) (resp : AuthResponse)
    (hcfg : missingVars cfg = []) (hmiss : cacheValid st now = false)
    (hstatus : resp.statusCode = 200) :
    (dictGet resp.bodyJson "access_token" = none →
      (Accounting.get_access_token cfg st now storeTime resp).result
          = .error (.keyError "access_token") ∧
      (Accounting.get_access_token cfg st now storeTime resp).state = st) ∧
    (∀ tok : JVal, ∀ e : Int,
      dictGet resp.bodyJson "access_token" = some tok →
      dictGet resp.bodyJson "expires_in" = some (.jNum e) →
      (Accounting.get_access_token cfg st now storeTime resp).result = .ok tok ∧
      (Accounting.get_access_token cfg st now storeTime resp).state.accessToken = some tok) := by
  constructor
  · intro habs
    unfold Accounting.get_access_token
    simp [hcfg, hmiss, hstatus, habs]
  · intro tok e htok hexp
    rw [get_access_token_success_eq cfg st now storeTime resp tok e hcfg hmiss hstatus htok hexp]
    exact ⟨rfl, rfl⟩

/-- C5 witness. -/
theorem C5_missing_key_witness :
    ((dictGet ([] : List (String × JVal)) "access_token" = none →
      (Accounting.get_access_token
          { clientId := some "i", clientSecret := some "s",
            appKey := some "a", tenantId := some "t" }
          initState 0 0 { statusCode := 200, bodyText := "", bodyJson := [] }).result
          = .error (.keyError "access_token") ∧
      (Accounting.get_access_token
          { clientId := some "i", clientSecret := some "s",
            appKey := some "a", tenantId := some "t" }
          initState 0 0 { statusCode := 200, bodyText := "", bodyJson := [] }).state
          = initState) ∧
    (∀ tok : JVal, ∀ e : Int,
      dictGet ([] : List (String × JVal)) "access_token" = some tok →
      dictGet ([] : List (String × JVal)) "expires_in" = some (.jNum e) →
      (Accounting.get_access_token
          { clientId := some "i", clientSecret := some "s",
            appKey := some "a", tenantId := some "t" }
          initState 0 0 { statusCode := 200, bodyText := "", bodyJson := [] }).result = .ok tok ∧
      (Accounting.get_access_token
          { clientId := some "i", clientSecret := some "s",
            appKey := some "a", tenantId := some "t" }
          initState 0 0 { statusCode := 200, bodyText := "", bodyJson := [] }).state.accessToken
        = some tok)) :=
  C5_missing_key_fails_nonstring_accepted
    { clientId := some "i", clientSecret := some "s",
      appKey := some "a", tenantId := some "t" }
    initState 0 0 { statusCode := 200, bodyText := "", bodyJson := [] }
    (by rfl) (by rfl) (by rfl)

end ServiceTitan

namespace ServiceTitan

/-- C6 counterexample: a token fetched at time 40 with `expires_in = 120`
is stored with `_token_expires_at = 100`; a call at time 70 returns it from
the cache without refetching, although `70 < 100 - 60` is false — so reuse
is not limited to `now < stored expires_at - 60`. -/
theorem C6_counterexample :
    ((Accounting.get_access_token
        { clientId := some "i", clientSecret := some "s",
          appKey := some "a", tenantId := some "t" }
        initState 40 40
        { statusCode := 200, bodyText := "",
          bodyJson := [("access_token", .jStr "tok"), ("expires_in", .jNum 120)] }).state.tokenExpiresAt
      = 100) ∧
    (Accounting.get_access_token
        { clientId := some "i", clientSecret := some "s",
          appKey := some "a", tenantId := some "t" }
        (Accounting.get_access_token
          { clientId := some "i", clientSecret := some "s",
            appKey := some "a", tenantId := some "t" }
          initState 40 40
          { statusCode := 200, bodyText := "",
            bodyJson := [("access_token", .jStr "tok"), ("expires_in", .jNum 120)] }).state
        70 70 { statusCode := 500, bodyText := "", bodyJson := [] }
      = { result := .ok (.jStr "tok"),
          state := { accessToken := some (.jStr "tok"), tokenExpiresAt := 100 },
          authRequests := 0 }) ∧
    ¬ ((70:Int) < 100 - 60) := by
  refine ⟨by rfl, by rfl, by decide⟩

/-- C6 amended: the cache-hit test reuses a token exactly while
`now < _token_expires_at` (the stored value); since a successful fetch
stores `storeTime + expires_in - 60`, a token fetched with `expires_in = e`
is reused only while `now < storeTime + e - 60` — the reuse window ends 60
seconds before the server-reported expiry, not 60 seconds before the stored
value. -/
theorem C6_reuse_window_ends_before_server_expiry
    (cfg : Config) (st : TokenState) (now storeTime : Int) (resp : AuthResponse)
    (tok : JVal) (e : Int)
    (hcfg : missingVars cfg = []) (hmiss : cacheValid st now = false)
    (hstatus : resp.statusCode = 200)
    (htok : dictGet resp.bodyJson "access_token" = some tok)
    (hexp : dictGet resp.bodyJson "expires_in" = some (.jNum e)) :
    (∀ st2 : TokenState, ∀ now2 : Int,
      cacheValid st2 now2 = true → now2 < st2.tokenExpiresAt) ∧
    (∀ now2 : Int,
      cacheValid (Accounting.get_access_token cfg st now storeTime resp).state now2 = true →
      now2 < storeTime + e - 60) := by
  have base : ∀ st2 : TokenState, ∀ now2 : Int,
      cacheValid st2 now2 = true → now2 < st2.tokenExpiresAt := by
    intro st2 now2 hvalid
    have h2 := (Bool.and_eq_true _ _).mp hvalid
    exact of_decide_eq_true h2.2
  refine ⟨base, ?_⟩
  intro now2 hvalid
  have h3 := base _ now2 hvalid
  rw [get_access_token_success_eq cfg st now storeTime resp tok e
    hcfg hmiss hstatus htok hexp] at h3
  exact h3

/-- C6 witness. -/
theorem C6_reuse_window_witness :
    ((∀ st2 : TokenState, ∀ now2 : Int,
      cacheValid st2 now2 = true → now2 < st2.tokenExpiresAt) ∧
    (∀ now2 : Int,
      cacheValid (Accounting.get_access_token
        { clientId := some "i", clientSecret := some "s",
          appKey := some "a", tenantId := some "t" }
        initState 40 40
        { statusCode := 200, bodyText := "",
          bodyJson := [("access_token", .jStr "tok"), ("expires_in", .jNum 120)] }).state now2 = true →
      now2 < 40 + 120 - 60)) :=
  C6_reuse_window_ends_before_server_expiry
    { clientId := some "i", clientSecret := some "s",
      appKey := some "a", tenantId := some "t" }
    initState 40 40
    { statusCode := 200, bodyText := "",
      bodyJson := [("access_token", .jStr "tok"), ("expires_in", .jNum 120)] }
    (.jStr "tok") 120 (by rfl) (by rfl) (by rfl) (by rfl) (by rfl)

/-- C7: on a cold start (empty cache) exactly one POST is issued to the
auth endpoint whatever the response; on success its `access_token` value is
returned; on failure the single error propagates unchanged through
`make_api_request` with no resource request and still exactly one auth
POST — no second attempt, no retry. -/
theorem C7_cold_start_single_post_no_retry
    (cfg : Config) (now storeTime : Int) (resp : AuthResponse) (apiResp : ApiResponse)
    (hcfg : missingVars cfg = []) :
    ((Accounting.get_access_token cfg initState now storeTime resp).authRequests = 1) ∧
    (∀ tok : JVal, ∀ e : Int, resp.statusCode = 200 →
      dictGet resp.bodyJson "access_token" = some tok →
      dictGet resp.bodyJson "expires_in" = some (.jNum e) →
      (Accounting.get_access_token cfg initState now storeTime resp).result = .ok tok) ∧
    (∀ err : PyError,
      (Accounting.get_access_token cfg initState now storeTime resp).result = .error err →
      Accounting.make_api_request cfg initState now storeTime resp apiResp =
        { result := .error err,
          state := (Accounting.get_access_token cfg initState now storeTime resp).state,
          authRequests := 1, apiRequests := 0 }) := by
  have hmiss : cacheValid initState now = false := by rfl
  have h1 := auth_requests_one_of_miss cfg initState now storeTime resp hcfg hmiss
  refine ⟨h1, ?_, ?_⟩
  · intro tok e hstatus htok hexp
    rw [get_access_token_success_eq cfg initState now storeTime resp tok e
      hcfg hmiss hstatus htok hexp]
  · intro err herr
    unfold Accounting.make_api_request
    simp [herr, h1]

/-- C7 witness. -/
theorem C7_cold_start_witness :
    (((Accounting.get_access_token
        { clientId := some "i", clientSecret := some "s",
          appKey := some "a", tenantId := some "t" }
        initState 0 0
        { statusCode := 200, bodyText := "",
          bodyJson := [("access_token", .jStr "tok"), ("expires_in", .jNum 900)] }).authRequests = 1) ∧
    (∀ tok : JVal, ∀ e : Int, (200:Nat) = 200 →
      dictGet [("access_token", .jStr "tok"), ("expires_in", .jNum 900)] "access_token" = some tok →
      dictGet [("access_token", .jStr "tok"), ("expires_in", .jNum 900)] "expires_in" = some (.jNum e) →
      (Accounting.get_access_token
        { clientId := some "i", clientSecret := some "s",
          appKey := some "a", tenantId := some "t" }
        initState 0 0
        { statusCode := 200, bodyText := "",
          bodyJson := [("access_token", .jStr "tok"), ("expires_in", .jNum 900)] }).result = .ok tok) ∧
    (∀ err : PyError,
      (Accounting.get_access_token
        { clientId := some "i", clientSecret := some "s",
          appKey := some "a", tenantId := some "t" }
        initState 0 0
        { statusCode := 200, bodyText := "",
          bodyJson := [("access_token", .jStr "tok"), ("expires_in", .jNum 900)] }).result = .error err →
      Accounting.make_api_request
        { clientId := some "i", clientSecret := some "s",
          appKey := some "a", tenantId := some "t" }
        initState 0 0
        { statusCode := 200, bodyText := "",
          bodyJson := [("access_token", .jStr "tok"), ("expires_in", .jNum 900)] }
        { statusCode := 200, bodyText := "", bodyJson := .jNull } =
        { result := .error err,
          state := (Accounting.get_access_token
            { clientId := some "i", clientSecret := some "s",
              appKey := some "a", tenantId := some "t" }
            initState 0 0
            { statusCode := 200, bodyText := "",
              bodyJson := [("access_token", .jStr "tok"), ("expires_in", .jNum 900)] }).state,
          authRequests := 1, apiRequests := 0 })) :=
  C7_cold_start_single_post_no_retry
    { clientId := some "i", clientSecret := some "s",
      appKey := some "a", tenantId := some "t" }
    0 0
    { statusCode := 200, bodyText := "",
      bodyJson := [("access_token", .jStr "tok"), ("expires_in", .jNum 900)] }
    { statusCode := 200, bodyText := "", bodyJson := .jNull }
    (by rfl)

end ServiceTitan

namespace ServiceTitan

/-- C8 counterexample: `export_service_agreements` performs no status check
at all — a 500 response's parsed body is returned (no exception), and a 404
response's parsed body is returned as-is, which is not a dict of the shape
`\x7b"error": ...\x7d`. This refutes the claim for "every endpoint-wrapper
tool call". -/
theorem C8_counterexample :
    (SvcAgreements.export_service_agreements_handle
        { statusCode := 500, bodyText := "boom", bodyJson := .jObj [("data", .jNull)] }
      = .ok (.jObj [("data", .jNull)])) ∧
    (SvcAgreements.export_service_agreements_handle
        { statusCode := 404, bodyText := "", bodyJson := .jObj [("data", .jNull)] }
      = .ok (.jObj [("data", .jNull)])) ∧
    isErrorDict (.jObj [("data", .jNull)]) = false := by
  exact ⟨rfl, rfl, by decide⟩

/-- C8 amended: wrappers differ. `create_booking_provider_tag` returns the
dict `\x7b"error": "Not found", "status_code": 404\x7d` on a 404 and raises
on every other error status (>= 400); but `export_service_agreements`
performs no status handling and returns the parsed body for every status,
never raising and never producing an error dict on 404. -/
theorem C8_wrapper_error_handling_mixed
    (resp : ApiResponse) :
    (resp.statusCode = 404 →
      CRM.create_booking_provider_tag_handle resp
        = .ok (.jObj [("error", .jStr "Not found"), ("status_code", .jNum 404)]) ∧
      isErrorDict (.jObj [("error", .jStr "Not found"), ("status_code", .jNum 404)]) = true) ∧
    (resp.statusCode ≠ 404 → resp.statusCode ≥ 400 →
      CRM.create_booking_provider_tag_handle resp
        = .error (.httpStatusError resp.statusCode resp.bodyText)) ∧
    (SvcAgreements.export_service_agreements_handle resp = .ok resp.bodyJson) := by
  refine ⟨?_, ?_, rfl⟩
  · intro h404
    refine ⟨?_, by decide⟩
    unfold CRM.create_booking_provider_tag_handle
    simp [h404]
  · intro hne hge
    unfold CRM.create_booking_provider_tag_handle
    simp [hne, hge]

/-- C8 witness. -/
theorem C8_wrapper_witness :
    (CRM.create_booking_provider_tag_handle
        { statusCode := 404, bodyText := "", bodyJson := .jNull }
      = .ok (.jObj [("error", .jStr "Not found"), ("status_code", .jNum 404)]) ∧
      isErrorDict (.jObj [("error", .jStr "Not found"), ("status_code", .jNum 404)]) = true) ∧
    (CRM.create_booking_provider_tag_handle
        { statusCode := 500, bodyText := "boom", bodyJson := .jNull }
      = .error (.httpStatusError 500 "boom")) ∧
    (SvcAgreements.export_service_agreements_handle
        { statusCode := 500, bodyText := "boom", bodyJson := .jNull }
      = .ok .jNull) :=
  ⟨(C8_wrapper_error_handling_mixed
      { statusCode := 404, bodyText := "", bodyJson := .jNull }).1 rfl,
   (C8_wrapper_error_handling_mixed
      { statusCode := 500, bodyText := "boom", bodyJson := .jNull }).2.1
      (by decide) (by decide),
   (C8_wrapper_error_handling_mixed
      { statusCode := 500, bodyText := "boom", bodyJson := .jNull }).2.2⟩

/-- C9: the CRM module keeps no token cache: with configuration present,
every call to its `get_access_token` issues exactly one POST (so two
consecutive calls issue two), and a successful call returns the response's
`access_token`. -/
theorem C9_crm_no_cache_every_call_posts
    (cfg : Config) (r1 r2 : AuthResponse)
    (h : (envMissing cfg.clientId || envMissing cfg.clientSecret ||
          envMissing cfg.appKey || envMissing cfg.tenantId) = false) :
    ((CRM.get_access_token cfg r1).2 = 1) ∧
    ((CRM.get_access_token cfg r1).2 + (CRM.get_access_token cfg r2).2 = 2) ∧
    (∀ tok : JVal, r1.statusCode < 400 →
      dictGet r1.bodyJson "access_token" = some tok →
      (CRM.get_access_token cfg r1).1 = .ok tok) := by
  have key : ∀ r : AuthResponse, (CRM.get_access_token cfg r).2 = 1 := by
    intro r
    unfold CRM.get_access_token
    simp only [h, Bool.false_eq_true, if_false]
    split
    · rfl
    · split <;> rfl
  refine ⟨key r1, by rw [key r1, key r2], ?_⟩
  intro tok hlt htok
  unfold CRM.get_access_token
  simp [h, not_le.mpr hlt, htok]

/-- C9 witness. -/
theorem C9_crm_no_cache_witness :
    ((CRM.get_access_token
        { clientId := some "i", clientSecret := some "s",
          appKey := some "a", tenantId := some "t" }
        { statusCode := 200, bodyText := "",
          bodyJson := [("access_token", .jStr "t1")] }).2 = 1) ∧
    ((CRM.get_access_token
        { clientId := some "i", clientSecret := some "s",
          appKey := some "a", tenantId := some "t" }
        { statusCode := 200, bodyText := "",
          bodyJson := [("access_token", .jStr "t1")] }).2 +
     (CRM.get_access_token
        { clientId := some "i", clientSecret := some "s",
          appKey := some "a", tenantId := some "t" }
        { statusCode := 200, bodyText := "",
          bodyJson := [("access_token", .jStr "t2")] }).2 = 2) ∧
    (∀ tok : JVal, (200:Nat) < 400 →
      dictGet [("access_token", .jStr "t1")] "access_token" = some tok →
      (CRM.get_access_token
        { clientId := some "i", clientSecret := some "s",
          appKey := some "a", tenantId := some "t" }
        { statusCode := 200, bodyText := "",
          bodyJson := [("access_token", .jStr "t1")] }).1 = .ok tok) :=
  C9_crm_no_cache_every_call_posts
    { clientId := some "i", clientSecret := some "s",
      appKey := some "a", tenantId := some "t" }
    { statusCode := 200, bodyText := "", bodyJson := [("access_token", .jStr "t1")] }
    { statusCode := 200, bodyText := "", bodyJson := [("access_token", .jStr "t2")] }
    (by rfl)

/-- C10: in the interleaving model of the unguarded shared cache slot, two
callers that both observe a miss before either writes each perform the
fetch-and-store round trip (both `didFetch` flags are true), each overwrite
the slot, and the final cached token is that of whichever writer ran last —
in either write order. -/
theorem C10_concurrent_miss_both_fetch_last_writer_wins
    (now : Int) (st0 : TokenState) (ta tb : JVal) (ea eb : Int)
    (h : cacheValid st0 now = false) :
    (runSched now ta tb ea eb [false, true, false, true]
        { cache := st0, pa := .start, pb := .start }
      = { cache := { accessToken := some tb, tokenExpiresAt := eb },
          pa := .done ta true, pb := .done tb true }) ∧
    (runSched now ta tb ea eb [false, true, true, false]
        { cache := st0, pa := .start, pb := .start }
      = { cache := { accessToken := some ta, tokenExpiresAt := ea },
          pa := .done ta true, pb := .done tb true }) := by
  constructor <;> simp [runSched, stepCaller, h]

/-- C10 witness. -/
theorem C10_concurrent_witness :
    (runSched 0 (.jStr "a") (.jStr "b") 100 200 [false, true, false, true]
        { cache := initState, pa := .start, pb := .start }
      = { cache := { accessToken := some (.jStr "b"), tokenExpiresAt := 200 },
          pa := .done (.jStr "a") true, pb := .done (.jStr "b") true }) ∧
    (runSched 0 (.jStr "a") (.jStr "b") 100 200 [false, true, true, false]
        { cache := initState, pa := .start, pb := .start }
      = { cache := { accessToken := some (.jStr "a"), tokenExpiresAt := 100 },
          pa := .done (.jStr "a") true, pb := .done (.jStr "b") true }) :=
  C10_concurrent_miss_both_fetch_last_writer_wins 0 initState
    (.jStr "a") (.jStr "b") 100 200 (by rfl)

end ServiceTitan
